import Mathlib

/-! Verification of the indieneer API background-job subsystem and of the
products persistence model.

The background-job definitions are a shallow embedding of the job lifecycle
engine (job record, type registry, store, authorization guard, API handlers).
The products definitions are a shallow embedding of
`app/models/products.py` (`ProductsModel.patch` and `ProductsModel.put`),
with the MongoDB collection modelled as a list of documents, `$set` updates
applied to the first matching document, and inserts subject to MongoDB's
automatic unique index on `_id`. -/

/-- Modelled from the spec: the closed role type of `config/constants.FirebaseRole`
(the constants module is absent from the sources). The unit tests use its
`Service` member; `Regular` stands for any other role. -/
inductive FirebaseRole where
  | Service
  | Regular
  deriving DecidableEq, Repr

/-- Modelled from the spec: the resolved identity tuple `(profile_id, roles)`
that authentication yields for every request (spec section 6). -/
structure Principal where
  profile_id : String
  roles : List FirebaseRole
  deriving DecidableEq, Repr

/-- Modelled from the spec: the Event entity of `app/models/background_jobs.py`
(absent from the sources): a `type` validated against the registry and a
free-text `message`. -/
structure Event where
  type : String
  message : String
  deriving DecidableEq, Repr

/-- Modelled from the spec: the Job Record of `app/models/background_jobs.py`
(absent from the sources): opaque id, job `type`, mutable `status`,
immutable `created_by`, open `metadata` mapping and the append-only
`events` sequence. -/
structure BackgroundJob where
  _id : String
  type : String
  status : String
  created_by : String
  metadata : List (String × String)
  events : List Event
  deriving DecidableEq, Repr

/-- Modelled from the spec: the Job Type Registry's allow-list of supported
job types; the tests use "es_seeder" as the supported job type. -/
def supported_job_types : List String := ["es_seeder"]

/-- Modelled from the spec: the Job Type Registry's allow-list of supported
event types; the spec names "info" and "error". -/
def supported_event_types : List String := ["info", "error"]

/-- Modelled from the spec: `is_supported(job_type) -> bool` of the Job Type
Registry. -/
def is_supported (job_type : String) : Bool :=
  supported_job_types.contains job_type

/-- Modelled from the spec: `is_supported_event(event_type) -> bool` of the
Job Type Registry. -/
def is_supported_event (event_type : String) : Bool :=
  supported_event_types.contains event_type

/-- Error taxonomy of the API (spec section 7): `BadRequest` maps to 400,
`NotFound` to 404, `Forbidden` to 403. -/
inductive ApiError where
  | badRequest (msg : String)
  | notFound (msg : String)
  | forbidden (msg : String)
  deriving DecidableEq, Repr

/-- Modelled from the spec: the creation input `BackgroundJobCreate` used by
the create operation (`type`, `metadata`, and `created_by` derived from the
calling principal). -/
structure BackgroundJobCreate where
  type : String
  metadata : List (String × String)
  created_by : String
  deriving DecidableEq, Repr

/-- Modelled from the spec: the partial update `BackgroundJobPatch`; the
tests patch the `status` field, each field is presence-aware (`none` means
omitted). -/
structure BackgroundJobPatch where
  status : Option String
  deriving DecidableEq, Repr

/-- Modelled from the spec: the event creation input `EventCreate` (`type`
and `message`). -/
structure EventCreate where
  type : String
  message : String
  deriving DecidableEq, Repr

/-- Persisted state of the Job Store: the sequence of job records. -/
abbrev JobStore := List BackgroundJob

/-- Modelled from the spec: store operation `get(id) -> Job|absent`; absent
is a valid outcome, not an error. -/
def JobStore.get (s : JobStore) (background_job_id : String) : Option BackgroundJob :=
  s.find? (fun j => j._id = background_job_id)

/-- Modelled from the spec: store operation `get_all() -> ordered sequence
of Job`. -/
def JobStore.get_all (s : JobStore) : List BackgroundJob := s

/-- Modelled from the spec: store operation `create(input) -> Job`. It
validates `type` against the registry, failing with the "Unsupported job
type" BadRequest condition, and otherwise persists a new record with
`status="running"` and empty `events`. Each store operation returns its
result together with the post-operation store. -/
def JobStore.create (s : JobStore) (new_id : String) (input : BackgroundJobCreate) :
    Except ApiError BackgroundJob × JobStore :=
  if is_supported input.type then
    let job : BackgroundJob :=
      { _id := new_id, type := input.type, status := "running",
        created_by := input.created_by, metadata := input.metadata, events := [] }
    (Except.ok job, s ++ [job])
  else
    (Except.error (ApiError.badRequest "Unsupported job type"), s)

/-- Modelled from the spec: store operation `patch(id, partial_update)`.
Only the fields present in the partial update are applied (a field present
with an empty value is still applied); it returns absent, with the store
unchanged, when no record exists for `id`. -/
def JobStore.patch (s : JobStore) (background_job_id : String) (input : BackgroundJobPatch) :
    Option BackgroundJob × JobStore :=
  match JobStore.get s background_job_id with
  | none => (none, s)
  | some job =>
    let job' : BackgroundJob := { job with status := input.status.getD job.status }
    (some job', s.map (fun j => if j._id = background_job_id then job' else j))

/-- Modelled from the spec: store operation `add_event(id, event_input)`.
It validates the event `type` against the registry, failing with the
"Unsupported event type" BadRequest condition, and otherwise appends the
new Event to the record's `events` sequence and returns the full updated
record. -/
def JobStore.add_event (s : JobStore) (background_job_id : String) (input : EventCreate) :
    Except ApiError BackgroundJob × JobStore :=
  if is_supported_event input.type then
    match JobStore.get s background_job_id with
    | none => (Except.error (ApiError.notFound "\"BackgroundJob\" not found."), s)
    | some job =>
      let job' : BackgroundJob :=
        { job with events := job.events ++ [{ type := input.type, message := input.message }] }
      (Except.ok job', s.map (fun j => if j._id = background_job_id then job' else j))
  else
    (Except.error (ApiError.badRequest "Unsupported event type"), s)

/-- Modelled from the spec: the Job Authorization Guard of
`app/models/background_jobs.py` (absent from the sources), with the
role-bypass clause dropped: the repository's unit tests
(src/tests/app/api/v1/test_unit_background_jobs.py, lines 81-101, 362-384
and 472-499) send tokens carrying the Service role and still require
ForbiddenException whenever the caller's identity differs from the job's
`created_by`, so no role bypasses ownership. Access is permitted only if
the principal's identity equals the job's `created_by`; on denial the
guard fails with the "Forbidden." condition. -/
def authorize (p : Principal) (job : BackgroundJob) : Except ApiError Unit :=
  if p.profile_id = job.created_by then Except.ok ()
  else Except.error (ApiError.forbidden "Forbidden.")

/-- Request body of the create handler; each field is presence-aware. -/
structure CreateBody where
  type : Option String
  metadata : Option (List (String × String))
  deriving DecidableEq, Repr

/-- Request body of the patch handler; each field is presence-aware. -/
structure PatchBody where
  status : Option String
  deriving DecidableEq, Repr

/-- Request body of the add-event handler; each field is presence-aware. -/
structure EventBody where
  type : Option String
  message : Option String
  deriving DecidableEq, Repr

/-- Modelled from the spec: API handler `get_background_job` of
`app/api/v1/background_jobs.py` (absent from the sources): fetch by id,
fail with "not found" if absent, authorize, return the record. -/
def get_background_job (p : Principal) (s : JobStore) (background_job_id : String) :
    Except ApiError BackgroundJob × JobStore :=
  match JobStore.get s background_job_id with
  | none => (Except.error (ApiError.notFound "\"BackgroundJob\" not found."), s)
  | some job =>
    match authorize p job with
    | Except.error e => (Except.error e, s)
    | Except.ok _ => (Except.ok job, s)

/-- Modelled from the spec: API handler `get_all_background_jobs`: list all
jobs with no per-record filtering. -/
def get_all_background_jobs (s : JobStore) : Except ApiError (List BackgroundJob) × JobStore :=
  (Except.ok (JobStore.get_all s), s)

/-- Modelled from the spec: API handler `create_background_job` of
`app/api/v1/background_jobs.py` (absent from the sources). It validates
that the required fields are present, failing with "Not all required
fields are present" otherwise, then delegates to the store create with
`created_by` taken from the calling principal. The repository's unit test
rejects a body holding only `type`, so both `type` and `metadata` are
required. -/
def create_background_job (p : Principal) (new_id : String) (s : JobStore) (body : CreateBody) :
    Except ApiError BackgroundJob × JobStore :=
  match body.type, body.metadata with
  | some t, some m =>
    JobStore.create s new_id { type := t, metadata := m, created_by := p.profile_id }
  | _, _ => (Except.error (ApiError.badRequest "Not all required fields are present"), s)

/-- Modelled from the spec: API handler `update_background_job` of
`app/api/v1/background_jobs.py` (absent from the sources). It requires the
target job to exist (404 otherwise), requires at least one recognized
field in the payload ("No valid fields are present" otherwise), authorizes
ownership (403 otherwise), then delegates to the store patch. -/
def update_background_job (p : Principal) (s : JobStore) (background_job_id : String)
    (body : PatchBody) : Except ApiError BackgroundJob × JobStore :=
  match JobStore.get s background_job_id with
  | none => (Except.error (ApiError.notFound "\"BackgroundJob\" not found."), s)
  | some job =>
    if body.status.isNone then
      (Except.error (ApiError.badRequest "No valid fields are present"), s)
    else
      match authorize p job with
      | Except.error e => (Except.error e, s)
      | Except.ok _ =>
        match JobStore.patch s background_job_id { status := body.status } with
        | (some job', s') => (Except.ok job', s')
        | (none, s') => (Except.error (ApiError.notFound "\"BackgroundJob\" not found."), s')

/-- Modelled from the spec: API handler `create_background_job_event` of
`app/api/v1/background_jobs.py` (absent from the sources). It requires
`type` and `message` to be present (400 otherwise), requires the target
job to exist, authorizes ownership, then delegates to the store add_event,
whose unsupported-event-type failure is a 400-class error. -/
def create_background_job_event (p : Principal) (s : JobStore) (background_job_id : String)
    (body : EventBody) : Except ApiError BackgroundJob × JobStore :=
  match body.type, body.message with
  | some t, some m =>
    match JobStore.get s background_job_id with
    | none => (Except.error (ApiError.notFound "\"BackgroundJob\" not found."), s)
    | some job =>
      match authorize p job with
      | Except.error e => (Except.error e, s)
      | Except.ok _ => JobStore.add_event s background_job_id { type := t, message := m }
  | _, _ => (Except.error (ApiError.badRequest "Not all required fields are present"), s)

/-- Serialized BSON-like field values stored in a product document. -/
inductive Value where
  | vStr (s : String)
  | vInt (n : Int)
  | vBool (b : Bool)
  | vList (items : List Value)
  | vDoc (entries : List (String × Value))

/-- Serialization of a list of strings, as produced by `to_json`. -/
def strList (xs : List String) : Value :=
  Value.vList (xs.map Value.vStr)

/-- Partial product update of `app/models/products.py` (`ProductPatch`): every
field is optional and defaults to absent (`None`); structured fields are
carried in their serialized form. -/
structure ProductPatch where
  type : Option String := none
  name : Option String := none
  slug : Option String := none
  required_age : Option Int := none
  short_description : Option String := none
  detailed_description : Option String := none
  is_free : Option Bool := none
  platforms : Option Value := none
  price : Option Value := none
  supported_languages : Option (List String) := none
  media : Option Value := none
  requirements : Option Value := none
  developers : Option (List String) := none
  publishers : Option (List String) := none
  platforms_os : Option (List String) := none
  categories : Option (List String) := none
  genres : Option (List String) := none
  release_date : Option Value := none

/-- Serialization `ProductPatch.to_json`: the dictionary of all dataclass
fields in declaration order, absent fields serialized as `None`. -/
def ProductPatch.to_json (input_data : ProductPatch) : List (String × Option Value) :=
  [("type", input_data.type.map Value.vStr),
   ("name", input_data.name.map Value.vStr),
   ("slug", input_data.slug.map Value.vStr),
   ("required_age", input_data.required_age.map Value.vInt),
   ("short_description", input_data.short_description.map Value.vStr),
   ("detailed_description", input_data.detailed_description.map Value.vStr),
   ("is_free", input_data.is_free.map Value.vBool),
   ("platforms", input_data.platforms),
   ("price", input_data.price),
   ("supported_languages", input_data.supported_languages.map strList),
   ("media", input_data.media),
   ("requirements", input_data.requirements),
   ("developers", input_data.developers.map strList),
   ("publishers", input_data.publishers.map strList),
   ("platforms_os", input_data.platforms_os.map strList),
   ("categories", input_data.categories.map strList),
   ("genres", input_data.genres.map strList),
   ("release_date", input_data.release_date)]

/-- Update dictionary computed by `ProductsModel.patch`: the pairs of
`to_json` whose value is not `None`, in order. -/
def patch_updates (input_data : ProductPatch) : List (String × Value) :=
  input_data.to_json.filterMap (fun kv => kv.2.map (fun v => (kv.1, v)))

/-- Stored MongoDB document of the products collection: its `_id` and its
other fields as a key-to-value assignment. -/
structure MongoDoc where
  _id : String
  fields : String → Option Value

/-- Effect of a MongoDB `$set` document on the fields of one document: every
listed key is assigned, later occurrences winning; all other keys keep
their value. -/
def set_fields (f : String → Option Value) (updates : List (String × Value)) :
    String → Option Value :=
  updates.foldl (fun g kv => fun k => if k = kv.1 then some kv.2 else g k) f

/-- Effect of `update_one` with a `$set` document: the first document whose
`_id` matches is updated; all other documents are untouched. -/
def update_one_set : List MongoDoc → String → List (String × Value) → List MongoDoc
  | [], _, _ => []
  | d :: ds, product_id, updates =>
    if d._id = product_id then
      { d with fields := set_fields d.fields updates } :: ds
    else
      d :: update_one_set ds product_id updates

/-- Effect of `find_one` by `_id`: the first document whose `_id` matches,
if any. -/
def find_one (coll : List MongoDoc) (product_id : String) : Option MongoDoc :=
  coll.find? (fun d => d._id = product_id)

/-- Write error raised by the MongoDB driver: `DuplicateKeyError`, raised
when an insert violates the automatic unique index on `_id`. -/
inductive MongoWriteError where
  | duplicateKey
  deriving DecidableEq, Repr

/-- Effect of `insert_one` under MongoDB's automatic unique index on `_id`:
inserting a document whose `_id` is already stored raises
`DuplicateKeyError` and stores nothing; otherwise the document is appended
to the collection. No existing document is replaced either way. -/
def insert_one (coll : List MongoDoc) (d : MongoDoc) :
    Except MongoWriteError Unit × List MongoDoc :=
  if coll.any (fun d0 => d0._id = d._id) then
    (Except.error MongoWriteError.duplicateKey, coll)
  else
    (Except.ok (), coll ++ [d])

namespace ProductsModel

/-- Embedding of `ProductsModel.patch` (src/app/models/products.py, lines
312 to 331): it filters the `None` values out of the serialized input,
applies `update_one` with `$set` of the remaining pairs, then returns the
document found by `find_one`, or `None` when no document matches. The
post-operation collection is returned alongside. -/
def patch (coll : List MongoDoc) (product_id : String) (input_data : ProductPatch) :
    Option MongoDoc × List MongoDoc :=
  let updates := patch_updates input_data
  let coll' := update_one_set coll product_id updates
  (find_one coll' product_id, coll')

/-- Embedding of `ProductsModel.put` (src/app/models/products.py, lines 299
to 310): it calls `insert_one` on the product's serialized form and returns
the product; a `DuplicateKeyError` raised by the driver propagates, put
does not catch it. -/
def put (coll : List MongoDoc) (product : MongoDoc) :
    Except MongoWriteError MongoDoc × List MongoDoc :=
  match insert_one coll product with
  | (Except.ok _, coll') => (Except.ok product, coll')
  | (Except.error e, coll') => (Except.error e, coll')

end ProductsModel

/-- Growth relation between two job stores: every job readable before is
still readable after, and its events sequence has only been extended at the
end (no element deleted, mutated in place, or reordered). -/
def events_preserved (s s' : JobStore) : Prop :=
  ∀ i job, JobStore.get s i = some job →
    ∃ job', JobStore.get s' i = some job' ∧ ∃ suffix, job.events ++ suffix = job'.events

/-- Sample job record used to instantiate the theorems on concrete data. -/
def sample_job : BackgroundJob :=
  { _id := "job1", type := "es_seeder", status := "running", created_by := "p1",
    metadata := [("match_query", "test")], events := [] }

/-- Sample product document used to instantiate the theorems on concrete
data. -/
def sample_doc : MongoDoc :=
  { _id := "prod1",
    fields := fun k =>
      if k = "type" then some (Value.vStr "game")
      else if k = "is_free" then some (Value.vBool true)
      else none }

/-- Sample product document whose id is fresh with respect to
`sample_doc`. -/
def sample_doc2 : MongoDoc :=
  { _id := "prod2", fields := fun _ => none }

theorem jobstore_get_id (s : JobStore) (i : String) (job : BackgroundJob)
    (h : JobStore.get s i = some job) : job._id = i := by
  unfold JobStore.get at h
  simpa using List.find?_some h

theorem jobstore_get_append (s : JobStore) (job : BackgroundJob) (i : String)
    (job₀ : BackgroundJob) (h : JobStore.get s i = some job₀) :
    JobStore.get (s ++ [job]) i = some job₀ := by
  unfold JobStore.get at h ⊢
  rw [List.find?_append, h]
  rfl

theorem jobstore_get_map (s : JobStore) (f : BackgroundJob → BackgroundJob)
    (hf : ∀ j, (f j)._id = j._id) (i : String) :
    JobStore.get (s.map f) i = (JobStore.get s i).map f := by
  unfold JobStore.get
  have hp : ((fun j => decide (j._id = i)) ∘ f) = fun j => decide (j._id = i) := by
    funext j
    simp [Function.comp, hf j]
  rw [List.find?_map, hp]

theorem jobstore_get_map_update (s : JobStore) (background_job_id : String)
    (job job' : BackgroundJob) (hget : JobStore.get s background_job_id = some job)
    (hid : job'._id = job._id) (i : String) (job₀ : BackgroundJob)
    (h : JobStore.get s i = some job₀) :
    JobStore.get (s.map (fun j => if j._id = background_job_id then job' else j)) i =
      some (if job₀._id = background_job_id then job' else job₀) := by
  have hjid := jobstore_get_id s background_job_id job hget
  have hf : ∀ j, (if j._id = background_job_id then job' else j)._id = j._id := by
    intro j
    by_cases hj : j._id = background_job_id <;> simp [hj, hid, hjid]
  rw [jobstore_get_map s _ hf i, h]
  rfl

theorem events_preserved_refl (s : JobStore) : events_preserved s s :=
  fun _ job h => ⟨job, h, [], by simp⟩

theorem events_preserved_append (s : JobStore) (job : BackgroundJob) :
    events_preserved s (s ++ [job]) :=
  fun i job₀ h => ⟨job₀, jobstore_get_append s job i job₀ h, [], by simp⟩

theorem events_preserved_update (s : JobStore) (background_job_id : String)
    (job job' : BackgroundJob) (hget : JobStore.get s background_job_id = some job)
    (hid : job'._id = job._id) (hev : ∃ suffix, job.events ++ suffix = job'.events) :
    events_preserved s (s.map (fun j => if j._id = background_job_id then job' else j)) := by
  intro i job₀ h
  refine ⟨if job₀._id = background_job_id then job' else job₀,
    jobstore_get_map_update s background_job_id job job' hget hid i job₀ h, ?_⟩
  by_cases hc : job₀._id = background_job_id
  · have hi := jobstore_get_id s i job₀ h
    have hib : i = background_job_id := by rw [← hi, hc]
    subst hib
    have hjj : job₀ = job := by
      rw [hget] at h
      exact (Option.some.inj h).symm
    subst hjj
    simpa [hc] using hev
  · exact ⟨[], by simp [hc]⟩

/-- C2: for every job creation whose type is supported by the Job Type
Registry, the create operation succeeds and the returned and persisted
record has status "running" and an empty events sequence. -/
theorem background_job_create_defaults
    (s : JobStore) (new_id : String) (input : BackgroundJobCreate)
    (hsupp : is_supported input.type = true) :
    ∃ job, JobStore.create s new_id input = (Except.ok job, s ++ [job]) ∧
      job.status = "running" ∧ job.events = [] ∧
      job.type = input.type ∧ job.created_by = input.created_by := by
  refine ⟨{ _id := new_id, type := input.type, status := "running",
            created_by := input.created_by, metadata := input.metadata, events := [] },
    ?_, rfl, rfl, rfl, rfl⟩
  simp [JobStore.create, hsupp]

/-- Witness for C2 at the concrete creation input of the tests. -/
theorem background_job_create_defaults_witness :
    is_supported "es_seeder" = true ∧
    ∃ job, JobStore.create [] "job1"
        { type := "es_seeder", metadata := [("match_query", "test")], created_by := "p1" } =
        (Except.ok job, [] ++ [job]) ∧
      job.status = "running" ∧ job.events = [] ∧
      job.type = "es_seeder" ∧ job.created_by = "p1" :=
  ⟨rfl, background_job_create_defaults [] "job1"
    { type := "es_seeder", metadata := [("match_query", "test")], created_by := "p1" } rfl⟩

/-- C3: a create call with an unsupported job type and an add_event call
with an unsupported event type both fail with a BadRequest condition and
leave the store unchanged: no job record is persisted and no event is
appended. -/
theorem background_job_unsupported_type_rejected
    (s : JobStore) (new_id background_job_id : String)
    (input : BackgroundJobCreate) (einput : EventCreate)
    (hjob : is_supported input.type = false)
    (hev : is_supported_event einput.type = false) :
    JobStore.create s new_id input =
      (Except.error (ApiError.badRequest "Unsupported job type"), s) ∧
    JobStore.add_event s background_job_id einput =
      (Except.error (ApiError.badRequest "Unsupported event type"), s) := by
  constructor
  · simp [JobStore.create, hjob]
  · simp [JobStore.add_event, hev]

/-- Witness for C3 at the concrete unsupported type of the tests. -/
theorem background_job_unsupported_type_rejected_witness :
    is_supported "unsupported_type" = false ∧
    is_supported_event "unsupported_type" = false ∧
    (JobStore.create [sample_job] "job2"
        { type := "unsupported_type", metadata := [], created_by := "p1" } =
      (Except.error (ApiError.badRequest "Unsupported job type"), [sample_job]) ∧
     JobStore.add_event [sample_job] "job1"
        { type := "unsupported_type", message := "test" } =
      (Except.error (ApiError.badRequest "Unsupported event type"), [sample_job])) :=
  ⟨rfl, rfl, background_job_unsupported_type_rejected [sample_job] "job2" "job1"
    { type := "unsupported_type", metadata := [], created_by := "p1" }
    { type := "unsupported_type", message := "test" } rfl rfl⟩

/-- C6 (amended): both `type` and `metadata` are required by the create
handler; a request missing either fails with the "Not all required fields
are present" BadRequest condition and the store create is not invoked (the
store is unchanged); a request supplying both delegates to the store
create. -/
theorem background_job_create_required_fields
    (p : Principal) (new_id : String) (s : JobStore) (body : CreateBody) :
    (body.type = none ∨ body.metadata = none →
      create_background_job p new_id s body =
        (Except.error (ApiError.badRequest "Not all required fields are present"), s)) ∧
    (∀ t m, body.type = some t → body.metadata = some m →
      create_background_job p new_id s body =
        JobStore.create s new_id { type := t, metadata := m, created_by := p.profile_id }) := by
  obtain ⟨bt, bm⟩ := body
  constructor
  · rintro (h | h)
    · subst h
      cases bm <;> rfl
    · subst h
      cases bt <;> rfl
  · rintro t m ht hm
    simp only at ht hm
    subst ht
    subst hm
    rfl

/-- Witness for C6 (amended) at a complete concrete body. -/
theorem background_job_create_required_fields_witness :
    create_background_job { profile_id := "p1", roles := [] } "job1" []
        { type := some "es_seeder", metadata := some [("match_query", "test")] } =
      JobStore.create [] "job1"
        { type := "es_seeder", metadata := [("match_query", "test")], created_by := "p1" } :=
  (background_job_create_required_fields { profile_id := "p1", roles := [] } "job1" []
    { type := some "es_seeder", metadata := some [("match_query", "test")] }).2
    "es_seeder" [("match_query", "test")] rfl rfl

/-- Counterexample to C6 as stated: a create body supplying `type` but not
`metadata` does not pass the required-fields validation; the handler fails
with the missing-required-fields BadRequest condition even though `type`
is present. -/
theorem background_job_create_metadata_required_cex :
    (some "es_seeder" : Option String) ≠ none ∧
    create_background_job { profile_id := "p1", roles := [FirebaseRole.Service] } "job1" []
        { type := some "es_seeder", metadata := none } =
      (Except.error (ApiError.badRequest "Not all required fields are present"), []) :=
  ⟨by simp, rfl⟩

/-- C7 (amended): a patch request on an existing job whose payload contains
no recognized field fails with the "No valid fields are present" BadRequest
condition and the store-level patch is never invoked: the store is
returned unchanged. -/
theorem background_job_patch_requires_valid_fields
    (p : Principal) (s : JobStore) (background_job_id : String) (job : BackgroundJob)
    (hget : JobStore.get s background_job_id = some job) :
    update_background_job p s background_job_id { status := none } =
      (Except.error (ApiError.badRequest "No valid fields are present"), s) := by
  simp [update_background_job, hget]

/-- Witness for C7 (amended) on a concrete existing job. -/
theorem background_job_patch_requires_valid_fields_witness :
    JobStore.get [sample_job] "job1" = some sample_job ∧
    update_background_job { profile_id := "p1", roles := [] } [sample_job] "job1"
        { status := none } =
      (Except.error (ApiError.badRequest "No valid fields are present"), [sample_job]) :=
  ⟨rfl, background_job_patch_requires_valid_fields { profile_id := "p1", roles := [] }
    [sample_job] "job1" sample_job rfl⟩

/-- Counterexample to C7 as stated: a patch request whose payload contains
no recognized field, aimed at an id that matches no job, fails with the
NotFound condition, not with the "No valid fields are present" BadRequest
condition. -/
theorem background_job_patch_empty_body_cex :
    update_background_job { profile_id := "p1", roles := [FirebaseRole.Service] } [] "1"
        { status := none } =
      (Except.error (ApiError.notFound "\"BackgroundJob\" not found."), []) ∧
    ApiError.notFound "\"BackgroundJob\" not found." ≠
      ApiError.badRequest "No valid fields are present" :=
  ⟨rfl, by simp⟩

/-- C8: a patch call whose id matches no existing job fails at the API level
with the NotFound condition, while the store-level patch returns absent
rather than raising; in both cases the store is unchanged. -/
theorem background_job_patch_missing_job_not_found
    (p : Principal) (s : JobStore) (background_job_id : String) (body : PatchBody)
    (pinput : BackgroundJobPatch)
    (hget : JobStore.get s background_job_id = none) :
    update_background_job p s background_job_id body =
      (Except.error (ApiError.notFound "\"BackgroundJob\" not found."), s) ∧
    JobStore.patch s background_job_id pinput = (none, s) := by
  constructor
  · simp [update_background_job, hget]
  · simp [JobStore.patch, hget]

/-- Witness for C8 on the empty store. -/
theorem background_job_patch_missing_job_not_found_witness :
    JobStore.get [] "1" = none ∧
    (update_background_job { profile_id := "p1", roles := [] } [] "1"
        { status := some "running" } =
      (Except.error (ApiError.notFound "\"BackgroundJob\" not found."), []) ∧
     JobStore.patch [] "1" { status := some "running" } = (none, [])) :=
  ⟨rfl, background_job_patch_missing_job_not_found { profile_id := "p1", roles := [] }
    [] "1" { status := some "running" } { status := some "running" } rfl⟩

/-- C1 (amended): on get, patch and add_event requests targeting an
existing job, the authorization guard grants access exactly when the
principal's identity equals the job's `created_by`, regardless of the
principal's roles; the owner is served by the get handler, and on denial
each of the three handlers fails with the Forbidden condition, returning
no data and leaving the store unchanged. -/
theorem background_job_owner_only_access
    (p : Principal) (s : JobStore) (background_job_id v t m : String)
    (job : BackgroundJob) (hget : JobStore.get s background_job_id = some job) :
    ((authorize p job = Except.ok ()) ↔ p.profile_id = job.created_by) ∧
    (p.profile_id = job.created_by →
      get_background_job p s background_job_id = (Except.ok job, s)) ∧
    (p.profile_id ≠ job.created_by →
      authorize p job = Except.error (ApiError.forbidden "Forbidden.") ∧
      get_background_job p s background_job_id =
        (Except.error (ApiError.forbidden "Forbidden."), s) ∧
      update_background_job p s background_job_id { status := some v } =
        (Except.error (ApiError.forbidden "Forbidden."), s) ∧
      create_background_job_event p s background_job_id
          { type := some t, message := some m } =
        (Except.error (ApiError.forbidden "Forbidden."), s)) := by
  refine ⟨?_, ?_, ?_⟩
  · by_cases hp : p.profile_id = job.created_by <;> simp [authorize, hp]
  · intro hp
    have hauth : authorize p job = Except.ok () := by simp [authorize, hp]
    simp [get_background_job, hget, hauth]
  · intro hne
    have hauth : authorize p job = Except.error (ApiError.forbidden "Forbidden.") := by
      simp [authorize, hne]
    refine ⟨hauth, ?_, ?_, ?_⟩
    · simp [get_background_job, hget, hauth]
    · simp [update_background_job, hget, hauth]
    · simp [create_background_job_event, hget, hauth]

/-- Witness for C1 (amended): the job's owner, whose token also carries the
Service role, is granted access on the get handler. -/
theorem background_job_owner_only_access_witness :
    JobStore.get [sample_job] "job1" = some sample_job ∧
    ({ profile_id := "p1", roles := [FirebaseRole.Service] } : Principal).profile_id =
      sample_job.created_by ∧
    get_background_job { profile_id := "p1", roles := [FirebaseRole.Service] }
        [sample_job] "job1" = (Except.ok sample_job, [sample_job]) :=
  ⟨rfl, rfl, (background_job_owner_only_access
    { profile_id := "p1", roles := [FirebaseRole.Service] } [sample_job] "job1"
    "completed" "info" "started" sample_job rfl).2.1 rfl⟩

/-- Counterexample to C1 as stated: a principal holding the Service role
whose identity differs from the job's `created_by` is denied access; the
get and patch handlers fail with the Forbidden condition instead of
granting access, mirroring the unit tests that require ForbiddenException
for Service-role tokens on a job created by someone else. -/
theorem background_job_service_role_denied_cex :
    ({ profile_id := "p2", roles := [FirebaseRole.Service] } : Principal).roles.contains
      FirebaseRole.Service = true ∧
    ({ profile_id := "p2", roles := [FirebaseRole.Service] } : Principal).profile_id ≠
      sample_job.created_by ∧
    get_background_job { profile_id := "p2", roles := [FirebaseRole.Service] }
        [sample_job] "job1" =
      (Except.error (ApiError.forbidden "Forbidden."), [sample_job]) ∧
    update_background_job { profile_id := "p2", roles := [FirebaseRole.Service] }
        [sample_job] "job1" { status := some "running" } =
      (Except.error (ApiError.forbidden "Forbidden."), [sample_job]) ∧
    create_background_job_event { profile_id := "p2", roles := [FirebaseRole.Service] }
        [sample_job] "job1" { type := some "info", message := some "started" } =
      (Except.error (ApiError.forbidden "Forbidden."), [sample_job]) :=
  ⟨rfl, by decide, rfl, rfl, rfl⟩

/-- C4: an add_event call with a supported event type on an existing job by
an authorized principal returns a record whose events sequence is the old
sequence with the submitted event appended: its length grows by exactly
one, its new last element equals the submitted event, and the earlier
elements are unchanged and in their original order. -/
theorem background_job_add_event_appends
    (p : Principal) (s : JobStore) (background_job_id t m : String) (job : BackgroundJob)
    (hget : JobStore.get s background_job_id = some job)
    (hauth : authorize p job = Except.ok ())
    (hsupp : is_supported_event t = true) :
    ∃ job' s',
      create_background_job_event p s background_job_id
          { type := some t, message := some m } = (Except.ok job', s') ∧
      job'.events = job.events ++ [{ type := t, message := m }] ∧
      job'.events.length = job.events.length + 1 ∧
      job'.events.getLast? = some { type := t, message := m } ∧
      job'.events.take job.events.length = job.events := by
  refine ⟨{ job with events := job.events ++ [{ type := t, message := m }] },
    s.map (fun j => if j._id = background_job_id then
      { job with events := job.events ++ [{ type := t, message := m }] } else j),
    ?_, rfl, by simp, ?_, ?_⟩
  · simp [create_background_job_event, hget, hauth, JobStore.add_event, hsupp]
  · simp [List.getLast?_concat]
  · simp [List.take_left]

/-- Witness for C4: the job's owner appends an "info" event to a concrete
job with an empty event log. -/
theorem background_job_add_event_appends_witness :
    (JobStore.get [sample_job] "job1" = some sample_job ∧
     authorize { profile_id := "p1", roles := [] } sample_job = Except.ok () ∧
     is_supported_event "info" = true) ∧
    ∃ job' s',
      create_background_job_event { profile_id := "p1", roles := [] } [sample_job] "job1"
          { type := some "info", message := some "started" } = (Except.ok job', s') ∧
      job'.events = sample_job.events ++ [{ type := "info", message := "started" }] ∧
      job'.events.length = sample_job.events.length + 1 ∧
      job'.events.getLast? = some { type := "info", message := "started" } ∧
      job'.events.take sample_job.events.length = sample_job.events :=
  ⟨⟨rfl, rfl, rfl⟩, background_job_add_event_appends { profile_id := "p1", roles := [] }
    [sample_job] "job1" "info" "started" sample_job rfl rfl rfl⟩

/-- C10 (amended): `ProductsModel.put` persists by inserting rather than
replacing. For a product whose `_id` is already stored, the insert is
rejected by the automatic unique `_id` index with `DuplicateKeyError`, the
existing documents are left unmodified and no second document is stored,
so put never updates an existing product; for a product whose `_id` is
fresh, put appends it, leaving every existing document in place. -/
theorem products_put_insert_semantics
    (coll : List MongoDoc) (product fresh : MongoDoc)
    (hdup : ∃ d ∈ coll, d._id = product._id)
    (hfresh : ∀ d ∈ coll, d._id ≠ fresh._id) :
    ProductsModel.put coll product = (Except.error MongoWriteError.duplicateKey, coll) ∧
    ProductsModel.put coll fresh = (Except.ok fresh, coll ++ [fresh]) ∧
    (coll ++ [fresh]).take coll.length = coll := by
  refine ⟨?_, ?_, List.take_left coll [fresh]⟩
  · have hany : coll.any (fun d0 => decide (d0._id = product._id)) = true := by
      rw [List.any_eq_true]
      obtain ⟨d, hd, hid⟩ := hdup
      exact ⟨d, hd, by simp [hid]⟩
    simp [ProductsModel.put, insert_one, hany]
  · have hany : coll.any (fun d0 => decide (d0._id = fresh._id)) = false := by
      rw [List.any_eq_false]
      intro d hd
      simp [hfresh d hd]
    simp [ProductsModel.put, insert_one, hany]

/-- Witness for C10 (amended): putting a duplicate of the stored document
raises DuplicateKeyError with the collection unchanged, while a document
with a fresh id is appended. -/
theorem products_put_insert_semantics_witness :
    (∃ d ∈ [sample_doc], d._id = sample_doc._id) ∧
    (∀ d ∈ [sample_doc], d._id ≠ sample_doc2._id) ∧
    (ProductsModel.put [sample_doc] sample_doc =
        (Except.error MongoWriteError.duplicateKey, [sample_doc]) ∧
     ProductsModel.put [sample_doc] sample_doc2 =
        (Except.ok sample_doc2, [sample_doc] ++ [sample_doc2]) ∧
     ([sample_doc] ++ [sample_doc2]).take ([sample_doc] : List MongoDoc).length =
       [sample_doc]) := by
  have hdup : ∃ d ∈ [sample_doc], d._id = sample_doc._id := ⟨sample_doc, by simp, rfl⟩
  have hfresh : ∀ d ∈ [sample_doc], d._id ≠ sample_doc2._id := by
    intro d hd
    simp only [List.mem_singleton] at hd
    subst hd
    decide
  exact ⟨hdup, hfresh,
    products_put_insert_semantics [sample_doc] sample_doc sample_doc2 hdup hfresh⟩

/-- Counterexample to C10 as stated: for a product whose `_id` already
exists in the collection, put does not add a second document; the insert
raises `DuplicateKeyError`, the collection is unchanged and still holds
exactly one document. -/
theorem products_put_duplicate_cex :
    (∃ d ∈ [sample_doc], d._id = sample_doc._id) ∧
    ProductsModel.put [sample_doc] sample_doc =
      (Except.error MongoWriteError.duplicateKey, [sample_doc]) ∧
    (ProductsModel.put [sample_doc] sample_doc).2.length = 1 :=
  ⟨⟨sample_doc, by simp, rfl⟩, rfl, rfl⟩

theorem events_preserved_create (s : JobStore) (new_id : String)
    (input : BackgroundJobCreate) :
    events_preserved s (JobStore.create s new_id input).2 := by
  cases h : is_supported input.type with
  | true =>
    simp only [JobStore.create, h, if_true]
    exact events_preserved_append s _
  | false =>
    simp [JobStore.create, h]
    exact events_preserved_refl s

theorem events_preserved_store_patch (s : JobStore) (background_job_id : String)
    (pinput : BackgroundJobPatch) :
    events_preserved s (JobStore.patch s background_job_id pinput).2 := by
  cases hg : JobStore.get s background_job_id with
  | none =>
    simp [JobStore.patch, hg]
    exact events_preserved_refl s
  | some job =>
    simp only [JobStore.patch, hg]
    exact events_preserved_update s background_job_id job
      { job with status := pinput.status.getD job.status } hg rfl ⟨[], by simp⟩

theorem events_preserved_store_add_event (s : JobStore) (background_job_id : String)
    (einput : EventCreate) :
    events_preserved s (JobStore.add_event s background_job_id einput).2 := by
  cases he : is_supported_event einput.type with
  | false =>
    simp [JobStore.add_event, he]
    exact events_preserved_refl s
  | true =>
    cases hg : JobStore.get s background_job_id with
    | none =>
      simp [JobStore.add_event, he, hg]
      exact events_preserved_refl s
    | some job =>
      simp only [JobStore.add_event, he, hg]
      exact events_preserved_update s background_job_id job
        { job with events := job.events ++ [{ type := einput.type, message := einput.message }] }
        hg rfl ⟨[{ type := einput.type, message := einput.message }], rfl⟩

theorem events_preserved_get_handler (p : Principal) (s : JobStore)
    (background_job_id : String) :
    events_preserved s (get_background_job p s background_job_id).2 := by
  cases hg : JobStore.get s background_job_id with
  | none =>
    simp [get_background_job, hg]
    exact events_preserved_refl s
  | some job =>
    cases ha : authorize p job with
    | error e =>
      simp [get_background_job, hg, ha]
      exact events_preserved_refl s
    | ok u =>
      simp [get_background_job, hg, ha]
      exact events_preserved_refl s

theorem events_preserved_create_handler (p : Principal) (new_id : String) (s : JobStore)
    (cbody : CreateBody) :
    events_preserved s (create_background_job p new_id s cbody).2 := by
  cases ht : cbody.type with
  | none =>
    simp [create_background_job, ht]
    exact events_preserved_refl s
  | some t =>
    cases hm : cbody.metadata with
    | none =>
      simp [create_background_job, ht, hm]
      exact events_preserved_refl s
    | some m =>
      simp only [create_background_job, ht, hm]
      exact events_preserved_create s new_id _

theorem events_preserved_update_handler (p : Principal) (s : JobStore)
    (background_job_id : String) (pbody : PatchBody) :
    events_preserved s (update_background_job p s background_job_id pbody).2 := by
  cases hg : JobStore.get s background_job_id with
  | none =>
    simp [update_background_job, hg]
    exact events_preserved_refl s
  | some job =>
    by_cases hb : pbody.status.isNone
    · simp [update_background_job, hg, hb]
      exact events_preserved_refl s
    · cases ha : authorize p job with
      | error e =>
        simp [update_background_job, hg, hb, ha]
        exact events_preserved_refl s
      | ok u =>
        simp only [update_background_job, hg, hb, ha, Bool.false_eq_true, if_false,
          JobStore.patch]
        exact events_preserved_update s background_job_id job
          { job with status := pbody.status.getD job.status } hg rfl ⟨[], by simp⟩

theorem events_preserved_event_handler (p : Principal) (s : JobStore)
    (background_job_id : String) (ebody : EventBody) :
    events_preserved s (create_background_job_event p s background_job_id ebody).2 := by
  cases ht : ebody.type with
  | none =>
    simp [create_background_job_event, ht]
    exact events_preserved_refl s
  | some t =>
    cases hm : ebody.message with
    | none =>
      simp [create_background_job_event, ht, hm]
      exact events_preserved_refl s
    | some m =>
      cases hg : JobStore.get s background_job_id with
      | none =>
        simp [create_background_job_event, ht, hm, hg]
        exact events_preserved_refl s
      | some job =>
        cases ha : authorize p job with
        | error e =>
          simp [create_background_job_event, ht, hm, hg, ha]
          exact events_preserved_refl s
        | ok u =>
          simp only [create_background_job_event, ht, hm, hg, ha]
          exact events_preserved_store_add_event s background_job_id
            { type := t, message := m }

/-- C9: across every store operation and every API handler, a job record's
events sequence only grows: any job readable before the operation is still
readable after it, with its old events sequence an unchanged initial
segment of the new one (get and get_all leave the store untouched). -/
theorem background_job_events_append_only
    (p : Principal) (s : JobStore) (new_id background_job_id : String)
    (input : BackgroundJobCreate) (pinput : BackgroundJobPatch) (einput : EventCreate)
    (cbody : CreateBody) (pbody : PatchBody) (ebody : EventBody) :
    events_preserved s (JobStore.create s new_id input).2 ∧
    events_preserved s (JobStore.patch s background_job_id pinput).2 ∧
    events_preserved s (JobStore.add_event s background_job_id einput).2 ∧
    events_preserved s (get_background_job p s background_job_id).2 ∧
    events_preserved s (get_all_background_jobs s).2 ∧
    events_preserved s (create_background_job p new_id s cbody).2 ∧
    events_preserved s (update_background_job p s background_job_id pbody).2 ∧
    events_preserved s (create_background_job_event p s background_job_id ebody).2 :=
  ⟨events_preserved_create s new_id input,
   events_preserved_store_patch s background_job_id pinput,
   events_preserved_store_add_event s background_job_id einput,
   events_preserved_get_handler p s background_job_id,
   events_preserved_refl s,
   events_preserved_create_handler p new_id s cbody,
   events_preserved_update_handler p s background_job_id pbody,
   events_preserved_event_handler p s background_job_id ebody⟩
